import Mathlib

/-!
# Resolver selection and the plain resolver of portmaster

A shallow embedding of `resolver/scopes.go` (domain scopes, compliance checks,
`GetResolversInScope`, `addResolvers`) and of `resolver/resolver-plain.go`
(`PlainResolver.Query`), followed by the properties proved about them.

Conventions of the embedding:

* a Go `string` is a Lean `String`; `strings.HasSuffix` compares the character
  lists;
* a Go `error` result is an `Option`: `none` is `nil`;
* a slice `[]*Resolver` is a `List Resolver`; `append` adds at the end;
* package-level variables that hold the resolver registry are the fields of
  `Registry`, passed explicitly;
* functions of other packages (`netenv.IsConnectivityDomain`, the security-level
  options) are the fields of `Externals`, passed explicitly;
* logging calls have no effect on the results and are left out.
-/

namespace Portmaster

/-! ## Data model -/

/-- Modelled from the spec: the type `ResolverInfo` (declared outside the
embedded files), the identity of a resolver. `Typ` is the Go field `Type` (a
Lean keyword), `Source` the Go field `Source`, `Name` the human name. `ID`
holds the string that the method `Info.ID()` returns: the selection code only
ever compares its results for equality. -/
structure ResolverInfo where
  Name : String
  Typ : String
  Source : String
  ID : String
deriving DecidableEq, Repr

/-- Modelled from the spec: the type `Resolver` (declared outside the embedded
files), one upstream resolver, with the fields that the embedded code reads. -/
structure Resolver where
  Info : ResolverInfo
  ServerAddress : String
deriving DecidableEq, Repr

/-- Modelled from the spec: the type `Query` (declared outside the embedded
files), one resolution request. `QType` is a `dns.Type`, an unsigned 16-bit
record type; `SecurityLevel` is only ever passed to the security-level
options. -/
structure Query where
  FQDN : String
  dotPrefixedFQDN : String
  QType : Nat
  SecurityLevel : Nat
deriving DecidableEq, Repr

/-- Modelled from the spec: the type of the entries of `localScopes` (declared
outside the embedded files), a domain suffix bound to a set of resolvers. -/
structure Scope where
  Domain : String
  Resolvers : List Resolver
deriving DecidableEq, Repr

/-- Modelled from the spec: the package-level variables (declared outside the
embedded files) that make up the resolver registry, which
`GetResolversInScope` reads under `resolversLock`. -/
structure Registry where
  globalResolvers : List Resolver
  localResolvers : List Resolver
  systemResolvers : List Resolver
  mDNSResolvers : List Resolver
  envResolvers : List Resolver
  localScopes : List Scope
deriving DecidableEq, Repr

/-- What the embedded code uses from outside its files without fixing it: the
four configuration-backed security-level options, the connectivity-domain
predicate of package `netenv`, and the constant `InternalSpecialUseDomain`. -/
structure Externals where
  noInsecureProtocols : Nat → Bool
  noAssignedNameservers : Nat → Bool
  noMulticastDNS : Nat → Bool
  dontResolveSpecialDomains : Nat → Bool
  IsConnectivityDomain : String → Bool
  InternalSpecialUseDomain : String

/-- The errors that the compliance checks return: the three `err...` values
declared in `scopes.go`, and the three exported `Err...` values that it uses. -/
inductive ComplianceError where
  | ErrNotFound
  | ErrLocalhost
  | ErrSpecialDomainsDisabled
  | errInsecureProtocol
  | errAssignedServer
  | errMulticastDNS
deriving DecidableEq, Repr

/-! ## Constants declared outside the embedded files -/

/-- Modelled from the spec: the constant `ServerTypeDNS` (declared outside the
embedded files), the resolver type the spec calls plain-DNS. -/
def ServerTypeDNS : String := "plain-DNS"

/-- Modelled from the spec: the constant `ServerTypeTCP` (declared outside the
embedded files), the resolver type the spec calls TCP-DNS. -/
def ServerTypeTCP : String := "TCP-DNS"

/-- Modelled from the spec: the constant `ServerTypeDoT` (declared outside the
embedded files), the resolver type the spec calls DoT. -/
def ServerTypeDoT : String := "DoT"

/-- Modelled from the spec: the constant `ServerTypeDoH` (declared outside the
embedded files), the resolver type the spec calls DoH. -/
def ServerTypeDoH : String := "DoH"

/-- Modelled from the spec: the constant `ServerTypeEnv` (declared outside the
embedded files), the resolver type the spec calls environment-sourced. -/
def ServerTypeEnv : String := "environment-sourced"

/-- Modelled from the spec: the constant `ServerSourceConfigured` (declared
outside the embedded files), the source tag the spec writes "configured". -/
def ServerSourceConfigured : String := "configured"

/-- Modelled from the spec: the constant `ServerSourceOperatingSystem` (declared
outside the embedded files), the source tag the spec writes "operating-system". -/
def ServerSourceOperatingSystem : String := "operating-system"

/-- Modelled from the spec: the constant `ServerSourceMDNS` (declared outside the
embedded files), the source tag the spec writes "mDNS". -/
def ServerSourceMDNS : String := "mDNS"

/-- Modelled from the spec: the constant `ServerSourceEnv` (declared outside the
embedded files), the source tag the spec writes "environment". -/
def ServerSourceEnv : String := "environment"

/-- The constant `dns.TypeA` of the DNS library. -/
def TypeA : Nat := 1

/-- The constant `dns.TypeAAAA` of the DNS library. -/
def TypeAAAA : Nat := 28

/-! ## Domain scopes (`scopes.go`, lines 14-100) -/

def localhostDomain : String := ".localhost."

def invalidDomain : String := ".invalid."

def internalSpecialUseDomains (x : Externals) : List String :=
  ["." ++ x.InternalSpecialUseDomain]

def multicastDomains : List String :=
  [ ".local.",
    ".254.169.in-addr.arpa.",
    ".8.e.f.ip6.arpa.",
    ".9.e.f.ip6.arpa.",
    ".a.e.f.ip6.arpa.",
    ".b.e.f.ip6.arpa." ]

def specialUseDomains : List String :=
  [ ".home.arpa.",
    ".intranet.",
    ".internal.",
    ".private.",
    ".corp.",
    ".home.",
    ".lan.",
    ".10.in-addr.arpa.",
    ".16.172.in-addr.arpa.",
    ".17.172.in-addr.arpa.",
    ".18.172.in-addr.arpa.",
    ".19.172.in-addr.arpa.",
    ".20.172.in-addr.arpa.",
    ".21.172.in-addr.arpa.",
    ".22.172.in-addr.arpa.",
    ".23.172.in-addr.arpa.",
    ".24.172.in-addr.arpa.",
    ".25.172.in-addr.arpa.",
    ".26.172.in-addr.arpa.",
    ".27.172.in-addr.arpa.",
    ".28.172.in-addr.arpa.",
    ".29.172.in-addr.arpa.",
    ".30.172.in-addr.arpa.",
    ".31.172.in-addr.arpa.",
    ".168.192.in-addr.arpa.",
    ".d.f.ip6.arpa.",
    ".c.f.ip6.arpa.",
    ".example.",
    ".example.com.",
    ".example.net.",
    ".example.org.",
    ".test." ]

def specialServiceDomains : List String :=
  [ ".onion.",
    ".bit." ]

/-- Go's `strings.HasSuffix`. -/
def HasSuffix (s suffix : String) : Bool :=
  suffix.data.isSuffixOf s.data

/-- The loop of `domainInScope`: the first scope that is a suffix decides. -/
def domainInScope (dotPrefixedFQDN : String) : List String → Bool
  | [] => false
  | scope :: rest =>
    if HasSuffix dotPrefixedFQDN scope then true
    else domainInScope dotPrefixedFQDN rest

/-! ## Compliance checks (`scopes.go`, lines 178-240) -/

/-- The method `(q *Query) checkCompliance`. The conversion `uint16(q.QType)`
changes nothing, `dns.Type` being a `uint16` already. -/
def Query.checkCompliance (x : Externals) (q : Query) : Option ComplianceError :=
  if HasSuffix q.dotPrefixedFQDN invalidDomain then
    some .ErrNotFound
  else if HasSuffix q.dotPrefixedFQDN localhostDomain then
    if q.QType = TypeA ∨ q.QType = TypeAAAA then some .ErrLocalhost
    else some .ErrNotFound
  else if x.dontResolveSpecialDomains q.SecurityLevel
      && domainInScope q.dotPrefixedFQDN specialServiceDomains then
    some .ErrSpecialDomainsDisabled
  else
    none

/-- The `switch resolver.Info.Type` of `Resolver.checkCompliance`: `some` when
the case returns, `none` when control falls out of the switch. -/
def insecureProtocolSwitch (typ : String) : Option ComplianceError :=
  if typ = ServerTypeDNS then some .errInsecureProtocol
  else if typ = ServerTypeTCP then some .errInsecureProtocol
  else if typ = ServerTypeDoT then none
  else if typ = ServerTypeDoH then none
  else if typ = ServerTypeEnv then none
  else some .errInsecureProtocol

/-- The method `(resolver *Resolver) checkCompliance`. -/
def Resolver.checkCompliance (x : Externals) (resolver : Resolver) (q : Query) :
    Option ComplianceError :=
  match (if x.noInsecureProtocols q.SecurityLevel
         then insecureProtocolSwitch resolver.Info.Typ else none) with
  | some err => some err
  | none =>
    if x.noAssignedNameservers q.SecurityLevel
        && decide (resolver.Info.Source = ServerSourceOperatingSystem) then
      some .errAssignedServer
    else if x.noMulticastDNS q.SecurityLevel
        && decide (resolver.Info.Source = ServerSourceMDNS) then
      some .errMulticastDNS
    else
      none

/-! ## Resolver selection (`scopes.go`, lines 111-176) -/

/-- The inner loop of `addResolvers`: is a resolver with the same `Info.ID()`
already selected? -/
def alreadySelected (selected : List Resolver) (resolver : Resolver) : Bool :=
  match selected with
  | [] => false
  | selectedResolver :: rest =>
    if selectedResolver.Info.ID = resolver.Info.ID then true
    else alreadySelected rest resolver

/-- The function `addResolvers`: the candidates are visited in order, a
non-compliant one is skipped, one whose ID is already selected is skipped, any
other is appended. -/
def addResolvers (x : Externals) (q : Query) (selected : List Resolver) :
    List Resolver → List Resolver
  | [] => selected
  | resolver :: rest =>
    if (resolver.checkCompliance x q).isSome then
      addResolvers x q selected rest
    else if alreadySelected selected resolver then
      addResolvers x q selected rest
    else
      addResolvers x q (selected ++ [resolver]) rest

/-- The loop over `localScopes` in `GetResolversInScope`. -/
def addSearchScopes (x : Externals) (q : Query) (selected : List Resolver) :
    List Scope → List Resolver
  | [] => selected
  | scope :: rest =>
    if HasSuffix q.dotPrefixedFQDN scope.Domain then
      addSearchScopes x q (addResolvers x q selected scope.Resolvers) rest
    else
      addSearchScopes x q selected rest

/-- The function `GetResolversInScope`: the selected resolvers, the primary
source and the `tryAll` flag. -/
def GetResolversInScope (x : Externals) (reg : Registry) (q : Query) :
    List Resolver × String × Bool :=
  if domainInScope q.dotPrefixedFQDN (internalSpecialUseDomains x) then
    (reg.envResolvers, ServerSourceEnv, false)
  else if x.IsConnectivityDomain q.FQDN && decide (reg.systemResolvers.length > 0) then
    ([] ++ reg.systemResolvers, ServerSourceOperatingSystem, false)
  else
    let selected := addSearchScopes x q [] reg.localScopes
    if domainInScope q.dotPrefixedFQDN multicastDomains then
      let selected := addResolvers x q selected reg.mDNSResolvers
      let selected := addResolvers x q selected reg.localResolvers
      let selected := addResolvers x q selected reg.systemResolvers
      (selected, ServerSourceMDNS, true)
    else if domainInScope q.dotPrefixedFQDN specialUseDomains
        || domainInScope q.dotPrefixedFQDN specialServiceDomains then
      let selected := addResolvers x q selected reg.localResolvers
      let selected := addResolvers x q selected reg.systemResolvers
      (selected, "special", true)
    else
      let selected := addResolvers x q selected reg.globalResolvers
      (selected, ServerSourceConfigured, false)

/-! ## The plain resolver (`resolver-plain.go`) -/

/-- A `time.Duration` is an `int64` count of nanoseconds. -/
abbrev Duration := Int

/-- A `time.Time` instant, as nanoseconds on one time line. -/
abbrev Time := Int

def Second : Duration := 1000000000

def Minute : Duration := 60 * Second

def defaultClientTTL : Duration := 5 * Minute

def defaultRequestTimeout : Duration := 3 * Second

def defaultConnectTimeout : Duration := 5 * Second

def maxRequestTimeout : Duration := 5 * Second

/-- The smallest `time.Duration`. -/
def minDuration : Duration := -(2 ^ 63)

/-- The largest `time.Duration`. -/
def maxDuration : Duration := 2 ^ 63 - 1

/-- Go's `t.Sub(u)`: the difference of two instants, saturated to the range of
a `time.Duration`. -/
def Time.Sub (t u : Time) : Duration :=
  if t - u < minDuration then minDuration
  else if t - u > maxDuration then maxDuration
  else t - u

/-- Go's `time.Until(t)`, that is `t.Sub(time.Now())`, with the clock reading
`now` made explicit. -/
def Until (now t : Time) : Duration :=
  Time.Sub t now

/-- The part of a `context.Context` that `Query` reads: `ctx.Deadline()`
returns `(deadline, true)` for `some deadline` and `(_, false)` for `none`. -/
structure Context where
  Deadline : Option Time
deriving DecidableEq, Repr

/-- The `net.Dialer` literal built by `Query`. -/
structure Dialer where
  Timeout : Duration
  LocalAddr : Option String
deriving DecidableEq, Repr

/-- The `dns.Client` literal built by `Query`. -/
structure Client where
  Timeout : Duration
  Dialer : Dialer
deriving DecidableEq, Repr

/-- The question that `dnsQuery.SetQuestion` stores in the `dns.Msg`. -/
structure Question where
  Name : String
  Qtype : Nat
deriving DecidableEq, Repr

/-- The fields of the reply `dns.Msg` that `Query` reads; a resource record is
kept as its text. -/
structure Reply where
  Rcode : Int
  Answer : List String
  Ns : List String
  Extra : List String
deriving DecidableEq, Repr

/-- A Go `error` value as far as `errors.As(err, &nErr)` with `nErr` a
`net.Error` can tell values apart: a `net.Error` with what its `Timeout()`
returns, an error that is no `net.Error` and wraps nothing, or a wrapper that
is no `net.Error` itself around another error. -/
inductive GoError where
  | netError (msg : String) (timeout : Bool)
  | plainError (msg : String)
  | wrapError (msg : String) (inner : GoError)
deriving DecidableEq, Repr

/-- The expression `errors.As(err, &nErr)` followed by `nErr.Timeout()`: `none`
when no error of the chain is a `net.Error`, else the `Timeout()` of the first
one. -/
def GoError.asNetError : GoError → Option Bool
  | .netError _ timeout => some timeout
  | .plainError _ => none
  | .wrapError _ inner => inner.asNetError

/-- The signals sent to the network-environment monitor. -/
inductive Signal where
  | ReportFailedConnection
  | ReportSuccessfulConnection
deriving DecidableEq, Repr

/-- Modelled from the spec: the type `RRCache` (declared outside the embedded
files), with the fields that `Query` fills. -/
structure RRCache where
  Domain : String
  Question : Nat
  RCode : Int
  Answer : List String
  Ns : List String
  Extra : List String
  Resolver : ResolverInfo
deriving DecidableEq, Repr

/-- The errors that `Query` returns: the error of the exchange, as received, or
a `BlockedUpstreamError` carrying the resolver's descriptive name. -/
inductive QueryError where
  | exchangeError (err : GoError)
  | BlockedUpstreamError (resolverName : String)
deriving DecidableEq, Repr

/-- What the plain resolver uses from outside its file: the exchange over the
network (`dnsClient.Exchange`), `getLocalAddr`, `IsBlockedUpstream` and
`Info.DescriptiveName`. -/
structure Network where
  Exchange : Client → Question → String → Except GoError Reply
  getLocalAddr : String → Option String
  IsBlockedUpstream : Resolver → Reply → Bool
  DescriptiveName : ResolverInfo → String

/-- The type `PlainResolver`: a `BasicResolverConn` holding its resolver. -/
structure PlainResolver where
  resolver : Resolver
deriving DecidableEq, Repr

/-- The function `NewPlainResolver`. -/
def NewPlainResolver (resolver : Resolver) : PlainResolver :=
  { resolver := resolver }

/-- The outcome of one call of `Query`: the two return values and the signals
sent to the environment monitor, in order. -/
structure QueryResult where
  record : Option RRCache
  err : Option QueryError
  signals : List Signal
deriving DecidableEq, Repr

/-- Lines 44-53 of `Query`: the timeout from the context and the default. -/
def requestTimeout (now : Time) (ctx : Context) : Duration :=
  let timeout : Duration :=
    match ctx.Deadline with
    | none => 0
    | some deadline => Until now deadline
  if timeout > defaultRequestTimeout then defaultRequestTimeout else timeout

/-- Lines 55-62 of `Query`: the client that performs the exchange. -/
def dnsClient (net : Network) (now : Time) (ctx : Context) : Client :=
  { Timeout := requestTimeout now ctx
    Dialer :=
      { Timeout := requestTimeout now ctx
        LocalAddr := net.getLocalAddr "udp" } }

/-- The method `(pr *PlainResolver) Query`, with the clock reading `now`. -/
def PlainResolver.Query (net : Network) (now : Time) (pr : PlainResolver)
    (ctx : Context) (q : Query) : QueryResult :=
  let dnsQuery : Question := { Name := q.FQDN, Qtype := q.QType }
  match net.Exchange (dnsClient net now ctx) dnsQuery pr.resolver.ServerAddress with
  | .error err =>
    let signals :=
      match err.asNetError with
      | some false => [Signal.ReportFailedConnection]
      | _ => []
    { record := none, err := some (.exchangeError err), signals := signals }
  | .ok reply =>
    if net.IsBlockedUpstream pr.resolver reply then
      { record := none
        err := some (.BlockedUpstreamError (net.DescriptiveName pr.resolver.Info))
        signals := [] }
    else
      { record := some
          { Domain := q.FQDN
            Question := q.QType
            RCode := reply.Rcode
            Answer := reply.Answer
            Ns := reply.Ns
            Extra := reply.Extra
            Resolver := pr.resolver.Info }
        err := none
        signals := [Signal.ReportSuccessfulConnection] }

/-! ## Reference definitions, written from the specification -/

/-- Keep only the first occurrence of each `Info.ID`: `seen` lists the IDs of
the entries already passed. -/
def keepFirstByID (seen : List String) : List Resolver → List Resolver
  | [] => []
  | r :: rest =>
    if r.Info.ID ∈ seen then keepFirstByID seen rest
    else r :: keepFirstByID (r.Info.ID :: seen) rest

/-- The resolvers of every local search scope whose domain is a suffix of the
query name, in scope order. -/
def matchingScopeResolvers (q : Query) (scopes : List Scope) : List Resolver :=
  (scopes.filter (fun scope => HasSuffix q.dotPrefixedFQDN scope.Domain)).flatMap
    (fun scope => scope.Resolvers)

/-- The reference selection for a multicast name, as the specification words
it: concatenate the resolvers of the matching local search scopes, the mDNS
resolvers, the local resolvers and the system resolvers; drop every resolver
that fails the resolver-level compliance check; keep the first occurrence of
each ID. -/
def multicastReference (x : Externals) (reg : Registry) (q : Query) : List Resolver :=
  keepFirstByID []
    ((matchingScopeResolvers q reg.localScopes ++ reg.mDNSResolvers
        ++ reg.localResolvers ++ reg.systemResolvers).filter
      (fun r => (r.checkCompliance x q).isNone))

/-! ## Concrete inputs used by the examples -/

/-- A configuration in which level 2 and above disable insecure protocols and
special-service domains, and level 3 and above disable assigned nameservers
and multicast DNS. The captive portal of the network sits below the internal
special-use domain, so its name is a connectivity domain as well. -/
def sampleExternals : Externals :=
  { noInsecureProtocols := fun level => decide (2 ≤ level)
    noAssignedNameservers := fun level => decide (3 ≤ level)
    noMulticastDNS := fun level => decide (3 ≤ level)
    dontResolveSpecialDomains := fun level => decide (2 ≤ level)
    IsConnectivityDomain := fun domain =>
      decide (domain = "detectportal.firefox.com.")
        || decide (domain = "portal.portmaster.home.arpa.")
    InternalSpecialUseDomain := "portmaster.home.arpa." }

/-- A plain-DNS resolver assigned by DHCP. -/
def dhcpResolver : Resolver :=
  { Info :=
      { Name := "dhcp", Typ := ServerTypeDNS, Source := ServerSourceOperatingSystem,
        ID := "dns://192.168.1.1:53" }
    ServerAddress := "192.168.1.1:53" }

/-- A second entry for the same server, with the same ID, under another name. -/
def dhcpResolverAgain : Resolver :=
  { Info :=
      { Name := "dhcp-again", Typ := ServerTypeDNS, Source := ServerSourceOperatingSystem,
        ID := "dns://192.168.1.1:53" }
    ServerAddress := "192.168.1.1:53" }

/-- The multicast resolver. -/
def multicastResolver : Resolver :=
  { Info :=
      { Name := "mdns", Typ := ServerTypeDNS, Source := ServerSourceMDNS,
        ID := "dns://224.0.0.251:5353" }
    ServerAddress := "224.0.0.251:5353" }

/-- A configured plain-DNS resolver on the local network. -/
def lanResolver : Resolver :=
  { Info :=
      { Name := "lan", Typ := ServerTypeDNS, Source := ServerSourceConfigured,
        ID := "dns://10.0.0.53:53" }
    ServerAddress := "10.0.0.53:53" }

/-- A configured DNS-over-TLS resolver. -/
def tlsResolver : Resolver :=
  { Info :=
      { Name := "dot", Typ := ServerTypeDoT, Source := ServerSourceConfigured,
        ID := "dot://9.9.9.9:853" }
    ServerAddress := "9.9.9.9:853" }

/-- A configured plain-DNS resolver on the Internet. -/
def plainResolver : Resolver :=
  { Info :=
      { Name := "plain", Typ := ServerTypeDNS, Source := ServerSourceConfigured,
        ID := "dns://9.9.9.9:53" }
    ServerAddress := "9.9.9.9:53" }

/-- The resolver of the environment. -/
def envResolver : Resolver :=
  { Info :=
      { Name := "env", Typ := ServerTypeEnv, Source := ServerSourceEnv,
        ID := "env://environment" }
    ServerAddress := "" }

/-- A registry with one resolver in each of the system, multicast and local
buckets, and no local search scope. -/
def sampleRegistry : Registry :=
  { globalResolvers := [tlsResolver, plainResolver]
    localResolvers := [lanResolver]
    systemResolvers := [dhcpResolver]
    mDNSResolvers := [multicastResolver]
    envResolvers := [envResolver]
    localScopes := [] }

/-- The registry `sampleRegistry` with the DHCP server listed twice. -/
def doubledRegistry : Registry :=
  { sampleRegistry with systemResolvers := [dhcpResolver, dhcpResolverAgain] }

/-- The registry `sampleRegistry` with two local search scopes, the first
bound to the DNS-over-TLS resolver (twice) and a plain-DNS resolver. -/
def scopedRegistry : Registry :=
  { sampleRegistry with
    localScopes :=
      [ { Domain := ".local.", Resolvers := [tlsResolver, plainResolver, tlsResolver] },
        { Domain := ".corp.", Resolvers := [lanResolver] } ] }

/-- A query for the name `fqdn` (dot-terminated) of the given record type and
security level; the dot-prefixed name is derived from it. -/
def sampleQuery (fqdn : String) (qtype level : Nat) : Query :=
  { FQDN := fqdn, dotPrefixedFQDN := "." ++ fqdn, QType := qtype, SecurityLevel := level }

/-- A network on which every exchange fails with `dns.ErrShortRead`, the error
of the DNS library for a reply shorter than a message header: it is no
`net.Error` and wraps nothing. -/
def shortReadNetwork : Network :=
  { Exchange := fun _ _ _ => .error (.plainError "dns: short read")
    getLocalAddr := fun _ => none
    IsBlockedUpstream := fun _ _ => false
    DescriptiveName := fun info => info.Name }

/-- A network on which every exchange fails with a `net.Error` that is no
timeout, here a refused connection wrapped once. -/
def refusingNetwork : Network :=
  { Exchange := fun _ _ _ =>
      .error (.wrapError "exchange failed" (.netError "connection refused" false))
    getLocalAddr := fun _ => none
    IsBlockedUpstream := fun _ _ => false
    DescriptiveName := fun info => info.Name }

/-! ## Lemmas on the selection loop -/

theorem alreadySelected_iff (selected : List Resolver) (resolver : Resolver) :
    alreadySelected selected resolver = true ↔
      resolver.Info.ID ∈ selected.map (fun s => s.Info.ID) := by
  induction selected with
  | nil => simp [alreadySelected]
  | cons s rest ih =>
    by_cases h : s.Info.ID = resolver.Info.ID
    · simp [alreadySelected, h]
    · have h2 : ¬ resolver.Info.ID = s.Info.ID := fun e => h e.symm
      simp [alreadySelected, h, h2, ih]

theorem keepFirstByID_congr (l : List Resolver) :
    ∀ s1 s2 : List String, (∀ a, a ∈ s1 ↔ a ∈ s2) →
      keepFirstByID s1 l = keepFirstByID s2 l := by
  induction l with
  | nil => intro s1 s2 _; rfl
  | cons r rest ih =>
    intro s1 s2 h
    by_cases hr : r.Info.ID ∈ s1
    · have hr2 : r.Info.ID ∈ s2 := (h _).1 hr
      simp only [keepFirstByID, hr, hr2, if_true]
      exact ih s1 s2 h
    · have hr2 : ¬ r.Info.ID ∈ s2 := fun e => hr ((h _).2 e)
      simp only [keepFirstByID, hr, hr2, if_false]
      congr 1
      apply ih
      intro a
      simp [h a]

theorem keepFirstByID_subset (l : List Resolver) :
    ∀ seen : List String, ∀ r ∈ keepFirstByID seen l, r ∈ l ∧ r.Info.ID ∉ seen := by
  induction l with
  | nil => intro seen r hr; simp [keepFirstByID] at hr
  | cons a rest ih =>
    intro seen r hr
    by_cases ha : a.Info.ID ∈ seen
    · simp only [keepFirstByID, ha, if_true] at hr
      have := ih seen r hr
      exact ⟨List.mem_cons_of_mem _ this.1, this.2⟩
    · simp only [keepFirstByID, ha, if_false, List.mem_cons] at hr
      rcases hr with rfl | hr
      · exact ⟨List.mem_cons_self _ _, ha⟩
      · have := ih _ r hr
        refine ⟨List.mem_cons_of_mem _ this.1, ?_⟩
        intro e
        exact this.2 (List.mem_cons_of_mem _ e)

theorem keepFirstByID_nodup (l : List Resolver) :
    ∀ seen : List String, ((keepFirstByID seen l).map (fun r => r.Info.ID)).Nodup := by
  induction l with
  | nil => intro seen; simp [keepFirstByID]
  | cons a rest ih =>
    intro seen
    by_cases ha : a.Info.ID ∈ seen
    · simp only [keepFirstByID, ha, if_true]
      exact ih seen
    · simp only [keepFirstByID, ha, if_false, List.map_cons, List.nodup_cons]
      refine ⟨?_, ih _⟩
      intro hmem
      rcases List.mem_map.1 hmem with ⟨r, hr, hid⟩
      have := (keepFirstByID_subset rest _ r hr).2
      apply this
      rw [hid]
      exact List.mem_cons_self _ _

/-- The loop of `addResolvers` computes: the selection so far, followed by the
compliant candidates whose ID is new, first occurrences only. -/
theorem addResolvers_eq (x : Externals) (q : Query) (cands : List Resolver) :
    ∀ selected : List Resolver,
      addResolvers x q selected cands =
        selected ++ keepFirstByID (selected.map (fun s => s.Info.ID))
          (cands.filter (fun r => (r.checkCompliance x q).isNone)) := by
  induction cands with
  | nil => intro selected; simp [addResolvers, keepFirstByID]
  | cons r rest ih =>
    intro selected
    cases hc : r.checkCompliance x q with
    | some err =>
      simp only [addResolvers, hc, Option.isSome_some, if_true]
      rw [ih selected]
      simp [List.filter_cons, hc]
    | none =>
      by_cases hs : alreadySelected selected r = true
      · have hmem := (alreadySelected_iff selected r).1 hs
        simp only [addResolvers, hc, hs, Option.isSome_none, if_true]
        rw [ih selected]
        simp only [List.filter_cons, hc, Option.isNone_none, if_true, keepFirstByID, hmem]
        simp
      · have hmem : ¬ r.Info.ID ∈ selected.map (fun s => s.Info.ID) :=
          fun e => hs ((alreadySelected_iff selected r).2 e)
        simp only [addResolvers, hc, hs, Option.isSome_none]
        rw [ih (selected ++ [r])]
        simp only [List.filter_cons, hc, Option.isNone_none, if_true, keepFirstByID, hmem,
          if_false]
        rw [keepFirstByID_congr _ ((selected ++ [r]).map (fun s => s.Info.ID))
          (r.Info.ID :: selected.map (fun s => s.Info.ID))]
        · simp
        · intro a
          simp [or_comm]

theorem addResolvers_append (x : Externals) (q : Query) (c1 c2 : List Resolver) :
    ∀ selected : List Resolver,
      addResolvers x q (addResolvers x q selected c1) c2 =
        addResolvers x q selected (c1 ++ c2) := by
  induction c1 with
  | nil => intro selected; simp [addResolvers]
  | cons r rest ih =>
    intro selected
    simp only [addResolvers, List.cons_append]
    split
    · exact ih selected
    · split
      · exact ih selected
      · exact ih _

theorem addSearchScopes_eq (x : Externals) (q : Query) (scopes : List Scope) :
    ∀ selected : List Resolver,
      addSearchScopes x q selected scopes =
        addResolvers x q selected (matchingScopeResolvers q scopes) := by
  induction scopes with
  | nil => intro selected; simp [addSearchScopes, matchingScopeResolvers, addResolvers]
  | cons scope rest ih =>
    intro selected
    by_cases h : HasSuffix q.dotPrefixedFQDN scope.Domain = true
    · simp only [addSearchScopes, h, if_true]
      rw [ih]
      simp only [matchingScopeResolvers, List.filter_cons, h, if_true, List.flatMap_cons]
      rw [addResolvers_append]
    · have e : matchingScopeResolvers q (scope :: rest) = matchingScopeResolvers q rest := by
        simp [matchingScopeResolvers, List.filter_cons, h]
      rw [e, ← ih]
      simp [addSearchScopes, h]

/-- When neither the internal-special-use rule nor the connectivity rule fires,
the selected list is what `addResolvers` makes of some candidate list, starting
from nothing. -/
theorem selection_is_addResolvers (x : Externals) (reg : Registry) (q : Query)
    (hi : domainInScope q.dotPrefixedFQDN (internalSpecialUseDomains x) = false)
    (hc : ¬ (x.IsConnectivityDomain q.FQDN = true ∧ 0 < reg.systemResolvers.length)) :
    ∃ cands, (GetResolversInScope x reg q).1 = addResolvers x q [] cands := by
  have hc2 : (x.IsConnectivityDomain q.FQDN && decide (reg.systemResolvers.length > 0))
      = false := by
    cases h1 : x.IsConnectivityDomain q.FQDN with
    | false => simp
    | true =>
      have : ¬ 0 < reg.systemResolvers.length := fun h => hc ⟨h1, h⟩
      simp [this]
  unfold GetResolversInScope
  rw [hi, hc2]
  simp only [addSearchScopes_eq, addResolvers_append, Bool.false_eq_true, if_false]
  split
  · exact ⟨_, rfl⟩
  · split
    · exact ⟨_, rfl⟩
    · exact ⟨_, rfl⟩

theorem mem_addResolvers (x : Externals) (q : Query) (selected cands : List Resolver)
    (r : Resolver) (hr : r ∈ addResolvers x q selected cands) :
    r ∈ selected ∨ (r ∈ cands ∧ r.checkCompliance x q = none) := by
  rw [addResolvers_eq] at hr
  rcases List.mem_append.1 hr with h | h
  · exact Or.inl h
  · have h2 := (keepFirstByID_subset _ _ r h).1
    rw [List.mem_filter] at h2
    exact Or.inr ⟨h2.1, by simpa using h2.2⟩

theorem mem_addResolvers_nil (x : Externals) (q : Query) (cands : List Resolver)
    (r : Resolver) (hr : r ∈ addResolvers x q [] cands) :
    r ∈ cands ∧ r.checkCompliance x q = none := by
  rcases mem_addResolvers x q [] cands r hr with h | h
  · simp at h
  · exact h

theorem insecureProtocolSwitch_none_iff (typ : String) :
    insecureProtocolSwitch typ = none ↔
      (typ = ServerTypeDoT ∨ typ = ServerTypeDoH ∨ typ = ServerTypeEnv) := by
  unfold insecureProtocolSwitch
  by_cases h1 : typ = ServerTypeDNS
  · subst h1; decide
  · by_cases h2 : typ = ServerTypeTCP
    · subst h2; decide
    · by_cases h3 : typ = ServerTypeDoT
      · subst h3; decide
      · by_cases h4 : typ = ServerTypeDoH
        · subst h4; decide
        · by_cases h5 : typ = ServerTypeEnv
          · subst h5; decide
          · simp [h1, h2, h3, h4, h5]

theorem insecureProtocolSwitch_some (typ : String) (err : ComplianceError)
    (h : insecureProtocolSwitch typ = some err) : err = .errInsecureProtocol := by
  unfold insecureProtocolSwitch at h
  repeat' split at h
  all_goals first | cases h; rfl | cases h

theorem compliant_not_plain_dns (x : Externals) (r : Resolver) (q : Query)
    (h : x.noInsecureProtocols q.SecurityLevel = true)
    (hc : r.checkCompliance x q = none) : r.Info.Typ ≠ ServerTypeDNS := by
  intro e
  unfold Resolver.checkCompliance at hc
  rw [h, e] at hc
  simp [insecureProtocolSwitch] at hc

/-! ## The properties -/

/-- C1, as amended. Under a security level that disables insecure protocols,
no resolver of the list returned by `GetResolversInScope` has the plain-DNS
type, unless the list is a bucket handed back without compliance checks that
holds such a resolver itself: `envResolvers` under the internal-special-use
rule, `systemResolvers` under the connectivity-domain rule. -/
theorem no_plain_dns_outside_verbatim_buckets (x : Externals) (reg : Registry) (q : Query)
    (h : x.noInsecureProtocols q.SecurityLevel = true)
    (henv : domainInScope q.dotPrefixedFQDN (internalSpecialUseDomains x) = true →
      ∀ r ∈ reg.envResolvers, r.Info.Typ ≠ ServerTypeDNS)
    (hsys : domainInScope q.dotPrefixedFQDN (internalSpecialUseDomains x) = false →
      x.IsConnectivityDomain q.FQDN = true →
      ∀ r ∈ reg.systemResolvers, r.Info.Typ ≠ ServerTypeDNS) :
    ∀ r ∈ (GetResolversInScope x reg q).1, r.Info.Typ ≠ ServerTypeDNS := by
  intro r hr
  cases hi : domainInScope q.dotPrefixedFQDN (internalSpecialUseDomains x) with
  | true =>
    have e : (GetResolversInScope x reg q).1 = reg.envResolvers := by
      simp [GetResolversInScope, hi]
    rw [e] at hr
    exact henv hi r hr
  | false =>
    by_cases hc : x.IsConnectivityDomain q.FQDN = true ∧ 0 < reg.systemResolvers.length
    · have e : (GetResolversInScope x reg q).1 = reg.systemResolvers := by
        simp [GetResolversInScope, hi, hc.1, hc.2]
      rw [e] at hr
      exact hsys hi hc.1 r hr
    · obtain ⟨cands, e⟩ := selection_is_addResolvers x reg q hi hc
      rw [e] at hr
      exact compliant_not_plain_dns x r q h (mem_addResolvers_nil x q cands r hr).2

/-- C1, witness: a global name at level 2; the plain-DNS resolver of the global
bucket is filtered out. -/
theorem no_plain_dns_outside_verbatim_buckets_witness :
    sampleExternals.noInsecureProtocols (sampleQuery "wikipedia.org." 1 2).SecurityLevel = true ∧
    (GetResolversInScope sampleExternals sampleRegistry (sampleQuery "wikipedia.org." 1 2)).1
      = [tlsResolver] ∧
    ∀ r ∈ (GetResolversInScope sampleExternals sampleRegistry
      (sampleQuery "wikipedia.org." 1 2)).1, r.Info.Typ ≠ ServerTypeDNS :=
  ⟨by decide, by decide,
    no_plain_dns_outside_verbatim_buckets sampleExternals sampleRegistry
      (sampleQuery "wikipedia.org." 1 2) (by decide) (by decide) (by decide)⟩

/-- C1, counterexample. At level 2 insecure protocols are disabled, yet the
query for a connectivity domain gets the DHCP-assigned plain-DNS resolver. -/
theorem plain_dns_selected_for_connectivity_domain :
    sampleExternals.noInsecureProtocols
      (sampleQuery "detectportal.firefox.com." 1 2).SecurityLevel = true ∧
    dhcpResolver ∈ (GetResolversInScope sampleExternals sampleRegistry
      (sampleQuery "detectportal.firefox.com." 1 2)).1 ∧
    dhcpResolver.Info.Typ = ServerTypeDNS := by
  decide

/-- C2, as amended. For a query whose dot-prefixed name is not in the internal
special-use scope and whose name is a connectivity domain, and a registry
with at least one system resolver, `GetResolversInScope` returns exactly the
system resolvers (same elements, same order, no compliance filtering), with
source operating-system and `tryAll` false, whatever the security level. -/
theorem connectivity_returns_system_resolvers (x : Externals) (reg : Registry) (q : Query)
    (hi : domainInScope q.dotPrefixedFQDN (internalSpecialUseDomains x) = false)
    (hc : x.IsConnectivityDomain q.FQDN = true)
    (hs : 0 < reg.systemResolvers.length) :
    GetResolversInScope x reg q =
      (reg.systemResolvers, ServerSourceOperatingSystem, false) := by
  simp [GetResolversInScope, hi, hc, hs]

/-- C2, witness: at level 3 the DHCP-assigned plain-DNS resolver fails the
compliance check, and is returned all the same for a connectivity domain. -/
theorem connectivity_returns_system_resolvers_witness :
    dhcpResolver.checkCompliance sampleExternals
      (sampleQuery "detectportal.firefox.com." 1 3) = some .errInsecureProtocol ∧
    GetResolversInScope sampleExternals sampleRegistry
      (sampleQuery "detectportal.firefox.com." 1 3) =
        ([dhcpResolver], ServerSourceOperatingSystem, false) :=
  ⟨by decide,
    connectivity_returns_system_resolvers sampleExternals sampleRegistry
      (sampleQuery "detectportal.firefox.com." 1 3) (by decide) (by decide) (by decide)⟩

/-- C2, counterexample. The name of the captive portal is a connectivity
domain and the registry has a system resolver, but the name lies in the
internal special-use scope: the first rule answers with `envResolvers`, not
with the system resolvers. -/
theorem connectivity_domain_in_internal_scope :
    sampleExternals.IsConnectivityDomain
      (sampleQuery "portal.portmaster.home.arpa." 1 0).FQDN = true ∧
    0 < sampleRegistry.systemResolvers.length ∧
    GetResolversInScope sampleExternals sampleRegistry
      (sampleQuery "portal.portmaster.home.arpa." 1 0) =
        ([envResolver], ServerSourceEnv, false) ∧
    (GetResolversInScope sampleExternals sampleRegistry
      (sampleQuery "portal.portmaster.home.arpa." 1 0)).1 ≠ sampleRegistry.systemResolvers := by
  decide

/-- C3. When neither the internal-special-use rule nor the connectivity-domain
rule applies, every resolver of the list returned by `GetResolversInScope`
passes the resolver-level compliance check; and `addResolvers` never appends a
non-compliant candidate: what it returns was selected before or is a candidate
that passes the check. -/
theorem selected_resolvers_are_compliant (x : Externals) (reg : Registry) (q : Query)
    (hi : domainInScope q.dotPrefixedFQDN (internalSpecialUseDomains x) = false)
    (hc : ¬ (x.IsConnectivityDomain q.FQDN = true ∧ 0 < reg.systemResolvers.length)) :
    (∀ r ∈ (GetResolversInScope x reg q).1, r.checkCompliance x q = none) ∧
    (∀ (selected cands : List Resolver), ∀ r ∈ addResolvers x q selected cands,
      r ∈ selected ∨ (r ∈ cands ∧ r.checkCompliance x q = none)) := by
  refine ⟨?_, fun selected cands r hr => mem_addResolvers x q selected cands r hr⟩
  intro r hr
  obtain ⟨cands, e⟩ := selection_is_addResolvers x reg q hi hc
  rw [e] at hr
  exact (mem_addResolvers_nil x q cands r hr).2

/-- C3, witness: a global name at level 2; of the two configured resolvers the
plain-DNS one is non-compliant and only the DNS-over-TLS one is selected. -/
theorem selected_resolvers_are_compliant_witness :
    plainResolver.checkCompliance sampleExternals (sampleQuery "wikipedia.org." 28 2)
      = some .errInsecureProtocol ∧
    (GetResolversInScope sampleExternals sampleRegistry
      (sampleQuery "wikipedia.org." 28 2)).1 = [tlsResolver] ∧
    ∀ r ∈ (GetResolversInScope sampleExternals sampleRegistry
      (sampleQuery "wikipedia.org." 28 2)).1,
      r.checkCompliance sampleExternals (sampleQuery "wikipedia.org." 28 2) = none :=
  ⟨by decide, by decide,
    (selected_resolvers_are_compliant sampleExternals sampleRegistry
      (sampleQuery "wikipedia.org." 28 2) (by decide) (by decide)).1⟩

/-- C4, as amended. The list returned by `GetResolversInScope` holds no two
entries with the same `Info.ID`, even when an ID occurs more than once within
a bucket or across buckets, unless the list is a bucket handed back as it is
that holds a repeated ID itself: `envResolvers` under the internal-special-use
rule, `systemResolvers` under the connectivity-domain rule. -/
theorem selection_has_distinct_ids (x : Externals) (reg : Registry) (q : Query)
    (henv : domainInScope q.dotPrefixedFQDN (internalSpecialUseDomains x) = true →
      (reg.envResolvers.map (fun r => r.Info.ID)).Nodup)
    (hsys : domainInScope q.dotPrefixedFQDN (internalSpecialUseDomains x) = false →
      x.IsConnectivityDomain q.FQDN = true →
      (reg.systemResolvers.map (fun r => r.Info.ID)).Nodup) :
    ((GetResolversInScope x reg q).1.map (fun r => r.Info.ID)).Nodup := by
  cases hi : domainInScope q.dotPrefixedFQDN (internalSpecialUseDomains x) with
  | true =>
    have e : (GetResolversInScope x reg q).1 = reg.envResolvers := by
      simp [GetResolversInScope, hi]
    rw [e]
    exact henv hi
  | false =>
    by_cases hc : x.IsConnectivityDomain q.FQDN = true ∧ 0 < reg.systemResolvers.length
    · have e : (GetResolversInScope x reg q).1 = reg.systemResolvers := by
        simp [GetResolversInScope, hi, hc.1, hc.2]
      rw [e]
      exact hsys hi hc.1
    · obtain ⟨cands, e⟩ := selection_is_addResolvers x reg q hi hc
      rw [e, addResolvers_eq]
      simpa using keepFirstByID_nodup _ []

/-- C4, witness: a special-use name with the DHCP server listed twice in the
system bucket; one entry is selected. -/
theorem selection_has_distinct_ids_witness :
    (GetResolversInScope sampleExternals doubledRegistry (sampleQuery "nas.lan." 1 0)).1
      = [lanResolver, dhcpResolver] ∧
    ((GetResolversInScope sampleExternals doubledRegistry
      (sampleQuery "nas.lan." 1 0)).1.map (fun r => r.Info.ID)).Nodup :=
  ⟨by decide,
    selection_has_distinct_ids sampleExternals doubledRegistry
      (sampleQuery "nas.lan." 1 0) (by decide) (by decide)⟩

/-- C4, counterexample. With the DHCP server listed twice in the system
bucket, the query for a connectivity domain gets both entries, which share
their ID. -/
theorem duplicate_ids_for_connectivity_domain :
    (GetResolversInScope sampleExternals doubledRegistry
      (sampleQuery "detectportal.firefox.com." 1 0)).1 = [dhcpResolver, dhcpResolverAgain] ∧
    dhcpResolver.Info.ID = dhcpResolverAgain.Info.ID ∧
    ¬ ((GetResolversInScope sampleExternals doubledRegistry
      (sampleQuery "detectportal.firefox.com." 1 0)).1.map (fun r => r.Info.ID)).Nodup := by
  decide

/-- C5. For a query whose dot-prefixed name is in `multicastDomains` and to
which neither the internal-special-use rule nor the connectivity-domain rule
applies, `GetResolversInScope` returns the source mDNS, `tryAll` true, and the
list of the reference definition `multicastReference`. -/
theorem multicast_selection_refines_reference (x : Externals) (reg : Registry) (q : Query)
    (hm : domainInScope q.dotPrefixedFQDN multicastDomains = true)
    (hi : domainInScope q.dotPrefixedFQDN (internalSpecialUseDomains x) = false)
    (hc : ¬ (x.IsConnectivityDomain q.FQDN = true ∧ 0 < reg.systemResolvers.length)) :
    GetResolversInScope x reg q = (multicastReference x reg q, ServerSourceMDNS, true) := by
  have hc2 : (x.IsConnectivityDomain q.FQDN && decide (reg.systemResolvers.length > 0))
      = false := by
    cases h1 : x.IsConnectivityDomain q.FQDN with
    | false => simp
    | true =>
      have : ¬ 0 < reg.systemResolvers.length := fun h => hc ⟨h1, h⟩
      simp [this]
  unfold GetResolversInScope
  rw [hi, hc2, hm]
  simp only [addSearchScopes_eq, addResolvers_append, Bool.false_eq_true, if_false, if_true]
  rw [addResolvers_eq]
  simp [multicastReference]

/-- C5, witness: a multicast name at level 2 with a matching search scope that
lists the DNS-over-TLS resolver twice and a plain-DNS resolver between; the
plain-DNS candidates of all buckets are dropped and the DNS-over-TLS resolver
is kept once. -/
theorem multicast_selection_refines_reference_witness :
    multicastReference sampleExternals scopedRegistry (sampleQuery "printer.local." 1 2)
      = [tlsResolver] ∧
    GetResolversInScope sampleExternals scopedRegistry (sampleQuery "printer.local." 1 2) =
      (multicastReference sampleExternals scopedRegistry (sampleQuery "printer.local." 1 2),
        ServerSourceMDNS, true) :=
  ⟨by decide,
    multicast_selection_refines_reference sampleExternals scopedRegistry
      (sampleQuery "printer.local." 1 2) (by decide) (by decide) (by decide)⟩

/-- C6, as amended. For a registry with exactly one resolver in each of
`systemResolvers`, `mDNSResolvers` and `localResolvers` (pairwise distinct
IDs, each compliant under the query's security level, no local search scope)
and a query whose name is in `multicastDomains` and is neither an
internal-special-use nor a connectivity domain, `GetResolversInScope` returns
all three resolvers in the order the code adds them (the mDNS resolver, then
the local resolver, then the system resolver), with `tryAll` true and source
mDNS. -/
theorem multicast_selection_order (x : Externals) (reg : Registry) (q : Query)
    (s m l : Resolver)
    (hsys : reg.systemResolvers = [s]) (hmdns : reg.mDNSResolvers = [m])
    (hloc : reg.localResolvers = [l]) (hscopes : reg.localScopes = [])
    (hsm : s.Info.ID ≠ m.Info.ID) (hsl : s.Info.ID ≠ l.Info.ID) (hml : m.Info.ID ≠ l.Info.ID)
    (hcs : s.checkCompliance x q = none) (hcm : m.checkCompliance x q = none)
    (hcl : l.checkCompliance x q = none)
    (hm : domainInScope q.dotPrefixedFQDN multicastDomains = true)
    (hi : domainInScope q.dotPrefixedFQDN (internalSpecialUseDomains x) = false)
    (hc : x.IsConnectivityDomain q.FQDN = false) :
    GetResolversInScope x reg q = ([m, l, s], ServerSourceMDNS, true) := by
  unfold GetResolversInScope
  rw [hi, hc, hm, hsys, hmdns, hloc, hscopes]
  simp [addSearchScopes, addResolvers, alreadySelected, hcs, hcm, hcl, hml,
    Ne.symm hsm, Ne.symm hsl]

/-- C6, witness: the sample registry at level 0. -/
theorem multicast_selection_order_witness :
    GetResolversInScope sampleExternals sampleRegistry (sampleQuery "printer.local." 1 0) =
      ([multicastResolver, lanResolver, dhcpResolver], ServerSourceMDNS, true) :=
  multicast_selection_order sampleExternals sampleRegistry (sampleQuery "printer.local." 1 0)
    dhcpResolver multicastResolver lanResolver rfl rfl rfl rfl
    (by decide) (by decide) (by decide) (by decide) (by decide) (by decide)
    (by decide) (by decide) (by decide)

/-- C6, counterexample. The sample registry has one resolver per bucket, with
distinct IDs, all compliant at level 0, and no search scope; the multicast
name is neither internal nor a connectivity domain. The list starts with the
mDNS resolver and ends with the system resolver: it is not the system
resolver, the mDNS resolver, the local resolver in that order. -/
theorem multicast_selection_not_system_first :
    sampleRegistry.systemResolvers = [dhcpResolver] ∧
    sampleRegistry.mDNSResolvers = [multicastResolver] ∧
    sampleRegistry.localResolvers = [lanResolver] ∧
    sampleRegistry.localScopes = [] ∧
    dhcpResolver.Info.ID ≠ multicastResolver.Info.ID ∧
    dhcpResolver.Info.ID ≠ lanResolver.Info.ID ∧
    multicastResolver.Info.ID ≠ lanResolver.Info.ID ∧
    dhcpResolver.checkCompliance sampleExternals (sampleQuery "printer.local." 1 0) = none ∧
    multicastResolver.checkCompliance sampleExternals (sampleQuery "printer.local." 1 0)
      = none ∧
    lanResolver.checkCompliance sampleExternals (sampleQuery "printer.local." 1 0) = none ∧
    domainInScope (sampleQuery "printer.local." 1 0).dotPrefixedFQDN multicastDomains = true ∧
    domainInScope (sampleQuery "printer.local." 1 0).dotPrefixedFQDN
      (internalSpecialUseDomains sampleExternals) = false ∧
    sampleExternals.IsConnectivityDomain (sampleQuery "printer.local." 1 0).FQDN = false ∧
    (GetResolversInScope sampleExternals sampleRegistry (sampleQuery "printer.local." 1 0)).1
      = [multicastResolver, lanResolver, dhcpResolver] ∧
    (GetResolversInScope sampleExternals sampleRegistry (sampleQuery "printer.local." 1 0)).1
      ≠ [dhcpResolver, multicastResolver, lanResolver] := by
  decide

/-- C7. Under a security level that disables insecure protocols,
`Resolver.checkCompliance` fails with `errInsecureProtocol` if and only if the
resolver's type is none of DoT, DoH and the environment type; in particular
the plain-DNS type and the TCP-DNS type are rejected with that error. -/
theorem insecure_protocol_iff_not_exempt (x : Externals) (resolver : Resolver) (q : Query)
    (h : x.noInsecureProtocols q.SecurityLevel = true) :
    (resolver.checkCompliance x q = some .errInsecureProtocol ↔
      ¬ (resolver.Info.Typ = ServerTypeDoT ∨ resolver.Info.Typ = ServerTypeDoH ∨
          resolver.Info.Typ = ServerTypeEnv)) ∧
    (resolver.Info.Typ = ServerTypeDNS →
      resolver.checkCompliance x q = some .errInsecureProtocol) ∧
    (resolver.Info.Typ = ServerTypeTCP →
      resolver.checkCompliance x q = some .errInsecureProtocol) := by
  have key : resolver.checkCompliance x q = some .errInsecureProtocol ↔
      ¬ (resolver.Info.Typ = ServerTypeDoT ∨ resolver.Info.Typ = ServerTypeDoH ∨
          resolver.Info.Typ = ServerTypeEnv) := by
    rw [← insecureProtocolSwitch_none_iff]
    unfold Resolver.checkCompliance
    rw [h]
    cases hsw : insecureProtocolSwitch resolver.Info.Typ with
    | some err =>
      have := insecureProtocolSwitch_some _ _ hsw
      subst this
      simp
    | none =>
      simp only [if_true, not_true_eq_false, iff_false]
      split <;> [skip; split] <;> simp
  refine ⟨key, ?_, ?_⟩
  · intro e
    rw [key, e]
    decide
  · intro e
    rw [key, e]
    decide

/-- C7, witness: at level 2 a resolver of an unknown type is rejected, and a
DNS-over-TLS resolver assigned by DHCP is not rejected for its protocol at
level 3, but for its source. -/
theorem insecure_protocol_iff_not_exempt_witness :
    Resolver.checkCompliance sampleExternals
      { plainResolver with Info := { plainResolver.Info with Typ := "quic" } }
      (sampleQuery "wikipedia.org." 1 2) = some .errInsecureProtocol ∧
    Resolver.checkCompliance sampleExternals
      { dhcpResolver with Info := { dhcpResolver.Info with Typ := ServerTypeDoT } }
      (sampleQuery "wikipedia.org." 1 3) = some .errAssignedServer :=
  ⟨((insecure_protocol_iff_not_exempt sampleExternals
      { plainResolver with Info := { plainResolver.Info with Typ := "quic" } }
      (sampleQuery "wikipedia.org." 1 2) (by decide)).1).2 (by decide),
    by decide⟩

theorem localhost_not_invalid (s : String)
    (h : HasSuffix s localhostDomain = true) : HasSuffix s invalidDomain = false := by
  cases hinv : HasSuffix s invalidDomain with
  | false => rfl
  | true =>
    exfalso
    unfold HasSuffix at h hinv
    rw [List.isSuffixOf_iff_suffix] at h hinv
    have : invalidDomain.data <:+ localhostDomain.data :=
      List.suffix_of_suffix_length_le hinv h (by decide)
    revert this
    decide

/-- C8. For a query whose dot-prefixed name ends in `.localhost.`, at every
security level, `Query.checkCompliance` fails with `ErrLocalhost` when the
record type is A or AAAA and with `ErrNotFound` for every other record type;
it never reports the query as compliant. -/
theorem localhost_query_fails (x : Externals) (q : Query)
    (h : HasSuffix q.dotPrefixedFQDN localhostDomain = true) :
    (q.QType = TypeA ∨ q.QType = TypeAAAA → q.checkCompliance x = some .ErrLocalhost) ∧
    (¬ (q.QType = TypeA ∨ q.QType = TypeAAAA) → q.checkCompliance x = some .ErrNotFound) ∧
    q.checkCompliance x ≠ none := by
  have hinv := localhost_not_invalid _ h
  unfold Query.checkCompliance
  rw [hinv, h]
  refine ⟨?_, ?_, ?_⟩
  · intro ht
    simp [ht]
  · intro ht
    simp [ht]
  · by_cases ht : q.QType = TypeA ∨ q.QType = TypeAAAA <;> simp [ht]

/-- C8, witness: an AAAA query and an MX query for a name below `localhost`. -/
theorem localhost_query_fails_witness :
    (sampleQuery "db.localhost." 28 0).checkCompliance sampleExternals = some .ErrLocalhost ∧
    (sampleQuery "db.localhost." 15 3).checkCompliance sampleExternals = some .ErrNotFound :=
  ⟨(localhost_query_fails sampleExternals (sampleQuery "db.localhost." 28 0)
      (by decide)).1 (by decide),
    by decide⟩

theorem requestTimeout_some (now d : Time) :
    requestTimeout now { Deadline := some d } = min (Until now d) defaultRequestTimeout := by
  simp only [requestTimeout]
  split
  · rename_i h
    rw [min_eq_right (le_of_lt h)]
  · rename_i h
    rw [min_eq_left (not_lt.1 h)]

theorem Until_eq_sub (now d : Time) (h : minDuration ≤ d - now) (h2 : d - now ≤ maxDuration) :
    Until now d = d - now := by
  unfold Until Time.Sub
  rw [if_neg (not_lt.2 h), if_neg (not_lt.2 h2)]

theorem Until_seconds_out (now : Time) (k : Int) (hk : minDuration ≤ k * Second)
    (hk2 : k * Second ≤ maxDuration) : Until now (now + k * Second) = k * Second := by
  have e : now + k * Second - now = k * Second := by ring
  rw [Until_eq_sub now _ (by rw [e]; exact hk) (by rw [e]; exact hk2), e]

/-- C9. The timeout that `PlainResolver.Query` derives is, for a context with
deadline `d` read at time `now`, the minimum of the time until the deadline
(`time.Until`) and `defaultRequestTimeout`, which is 3 s; the time until the
deadline is `d - now` capped to the range of a duration, so the timeout is the
minimum of `d - now` and 3 s whenever `d - now` is no less than the smallest
duration; a deadline 10 s out gives 3 s and a deadline 1 s out gives at most
1 s. For a context without deadline the timeout is 0. The client timeout and
the dialer timeout are the same value. -/
theorem request_timeout_derivation (net : Network) (now : Time) :
    (∀ d : Time,
      (dnsClient net now { Deadline := some d }).Timeout
        = min (Until now d) defaultRequestTimeout) ∧
    (∀ d : Time, minDuration ≤ d - now →
      (dnsClient net now { Deadline := some d }).Timeout
        = min (d - now) defaultRequestTimeout) ∧
    defaultRequestTimeout = 3 * Second ∧
    (dnsClient net now { Deadline := some (now + 10 * Second) }).Timeout = 3 * Second ∧
    (dnsClient net now { Deadline := some (now + 1 * Second) }).Timeout ≤ 1 * Second ∧
    (dnsClient net now { Deadline := none }).Timeout = 0 ∧
    (∀ ctx : Context,
      (dnsClient net now ctx).Dialer.Timeout = (dnsClient net now ctx).Timeout) := by
  have hmax : defaultRequestTimeout ≤ maxDuration := by decide
  refine ⟨?_, ?_, rfl, ?_, ?_, ?_, ?_⟩
  · intro d
    exact requestTimeout_some now d
  · intro d hd
    show requestTimeout now { Deadline := some d } = _
    rw [requestTimeout_some]
    by_cases h2 : d - now ≤ maxDuration
    · rw [Until_eq_sub now d hd h2]
    · have h3 : maxDuration < d - now := not_le.1 h2
      have e : Until now d = maxDuration := by
        unfold Until Time.Sub
        rw [if_neg (not_lt.2 hd), if_pos h3]
      rw [e, min_eq_right hmax, min_eq_right (le_trans hmax (le_of_lt h3))]
  · show requestTimeout now { Deadline := some (now + 10 * Second) } = _
    rw [requestTimeout_some, Until_seconds_out now 10 (by decide) (by decide)]
    decide
  · show requestTimeout now { Deadline := some (now + 1 * Second) } ≤ _
    rw [requestTimeout_some, Until_seconds_out now 1 (by decide) (by decide)]
    exact min_le_left _ _
  · rfl
  · intro ctx
    rfl

/-- C9, witness: read at time 1000 with the deadline at 1500, the timeout is
the 500 ns that remain. -/
theorem request_timeout_derivation_witness :
    (dnsClient refusingNetwork 1000 { Deadline := some 1500 }).Timeout = 500 ∧
    (dnsClient refusingNetwork 1000 { Deadline := some 1500 }).Dialer.Timeout = 500 :=
  ⟨((request_timeout_derivation refusingNetwork 1000).2.1 1500 (by decide)).trans (by decide),
    by decide⟩

/-- What `PlainResolver.Query` does when the exchange fails with the error
`e`: it returns `e` unchanged with no record, never signals
`ReportSuccessfulConnection`, and signals `ReportFailedConnection` exactly
when `errors.As` finds a `net.Error` in `e` whose `Timeout()` is false. -/
theorem failed_exchange_outcome (net : Network) (now : Time) (pr : PlainResolver)
    (ctx : Context) (q : Query) (e : GoError)
    (h : net.Exchange (dnsClient net now ctx) { Name := q.FQDN, Qtype := q.QType }
      pr.resolver.ServerAddress = .error e) :
    (pr.Query net now ctx q).record = none ∧
    (pr.Query net now ctx q).err = some (.exchangeError e) ∧
    Signal.ReportSuccessfulConnection ∉ (pr.Query net now ctx q).signals ∧
    (Signal.ReportFailedConnection ∈ (pr.Query net now ctx q).signals ↔
      e.asNetError = some false) := by
  have hq : pr.Query net now ctx q =
      { record := none
        err := some (.exchangeError e)
        signals :=
          match e.asNetError with
          | some false => [Signal.ReportFailedConnection]
          | _ => [] } := by
    simp only [PlainResolver.Query, h]
  rw [hq]
  refine ⟨rfl, rfl, ?_, ?_⟩
  · cases e.asNetError with
    | none => simp
    | some t => cases t <;> simp
  · cases e.asNetError with
    | none => simp
    | some t => cases t <;> simp

/-- C10, the code at the failing input. The exchange fails with
`dns.ErrShortRead`, which is no `net.Error` and so no timeout: `Query` returns
it unchanged with no record and sends no signal at all, so the failed
connection is not reported, although the error is not a timeout. On the
sibling input, a refused connection (a `net.Error` that is no timeout), the
failed connection is reported. -/
theorem short_read_not_reported :
    shortReadNetwork.Exchange (dnsClient shortReadNetwork 0 { Deadline := none })
      { Name := "wikipedia.org.", Qtype := 1 } plainResolver.ServerAddress
      = .error (.plainError "dns: short read") ∧
    (GoError.plainError "dns: short read").asNetError = none ∧
    (NewPlainResolver plainResolver).Query shortReadNetwork 0 { Deadline := none }
      (sampleQuery "wikipedia.org." 1 0) =
      { record := none
        err := some (.exchangeError (.plainError "dns: short read"))
        signals := [] } ∧
    Signal.ReportFailedConnection ∉
      ((NewPlainResolver plainResolver).Query shortReadNetwork 0 { Deadline := none }
        (sampleQuery "wikipedia.org." 1 0)).signals ∧
    (NewPlainResolver plainResolver).Query refusingNetwork 0 { Deadline := none }
      (sampleQuery "wikipedia.org." 1 0) =
      { record := none
        err := some (.exchangeError
          (.wrapError "exchange failed" (.netError "connection refused" false)))
        signals := [Signal.ReportFailedConnection] } := by
  refine ⟨rfl, rfl, rfl, ?_, rfl⟩
  decide

end Portmaster
